/-
Verification of the plugin lifecycle manager (src/core/plugins) against its
natural-language specification.

The development shallowly embeds the Python modules:
  * src/core/models.py              data model (status enums, specs, results)
  * src/core/plugins/dependencies.py DependencyManager
  * src/core/plugins/registry.py     PluginRegistry

Modelling conventions:
  * Python dicts are association lists in insertion order (keys unique in all
    reachable states); Python sets are duplicate-free lists in insertion order
    (a deterministic refinement of hash iteration order).
  * Timestamps are naturals; `datetime.utcnow() - t < ttl` becomes
    `now - t < ttl` with truncated subtraction, matching the strict
    staleness check of the source.
  * External collaborators (the packaging requirement parser and the
    version-introspection service) are oracle parameters; the source's
    concrete placeholder `_get_installed_version` is embedded separately.
  * Fallible external calls are `Except String`; a Python exception raised by
    a collaborator is the `.error` case, and code without try/except around a
    collaborator call propagates that `.error`.
-/
import Mathlib

namespace PluginCore

/-! ### Association-list helpers (Python dict refinement) -/

def alook {α β : Type} [DecidableEq α] : List (α × β) → α → Option β
  | [], _ => none
  | p :: r, k => if p.1 = k then some p.2 else alook r k

/-- Python dict assignment `d[k] = v`: replace the (unique) binding of `k`,
or append a fresh binding. -/
def aset {α β : Type} [DecidableEq α] : List (α × β) → α → β → List (α × β)
  | [], k, v => [(k, v)]
  | p :: r, k, v => if p.1 = k then (k, v) :: r else p :: aset r k v

theorem alook_aset_self {α β : Type} [DecidableEq α]
    (l : List (α × β)) (k : α) (v : β) : alook (aset l k v) k = some v := by
  induction l with
  | nil => simp [aset, alook]
  | cons p r ih =>
    by_cases h : p.1 = k
    · simp [aset, alook, h]
    · simp [aset, alook, h, ih]

theorem alook_aset_ne {α β : Type} [DecidableEq α]
    (l : List (α × β)) (k k' : α) (v : β) (h : k' ≠ k) :
    alook (aset l k v) k' = alook l k' := by
  induction l with
  | nil => simp [aset, alook, Ne.symm h]
  | cons p r ih =>
    by_cases hp : p.1 = k
    · subst hp
      simp [aset, alook, Ne.symm h]
    · simp [aset, alook, hp, ih]

theorem alook_append_of_some {α β : Type} [DecidableEq α]
    (l l' : List (α × β)) (k : α) (v : β) (h : alook l k = some v) :
    alook (l ++ l') k = some v := by
  induction l with
  | nil => simp [alook] at h
  | cons p r ih =>
    by_cases hp : p.1 = k
    · simp [alook, hp] at h ⊢; exact h
    · simp [alook, hp] at h ⊢; exact ih h

theorem alook_append_of_none {α β : Type} [DecidableEq α]
    (l l' : List (α × β)) (k : α) (h : alook l k = none) :
    alook (l ++ l') k = alook l' k := by
  induction l with
  | nil => simp
  | cons p r ih =>
    by_cases hp : p.1 = k
    · simp [alook, hp] at h
    · simp [alook, hp] at h ⊢; exact ih h

/-- Update the value bound to `k` in place, leaving other bindings as they
are (models in-place mutation of the object stored under a key). -/
def mapUpd {α β : Type} [DecidableEq α] (l : List (α × β)) (k : α) (f : β → β) :
    List (α × β) :=
  l.map fun p => if p.1 = k then (p.1, f p.2) else p

theorem alook_mapUpd_ne {α β : Type} [DecidableEq α]
    (l : List (α × β)) (k k' : α) (f : β → β) (h : k' ≠ k) :
    alook (mapUpd l k f) k' = alook l k' := by
  induction l with
  | nil => simp [mapUpd, alook]
  | cons p r ih =>
    by_cases hp : p.1 = k
    · subst hp
      simp [mapUpd, alook, Ne.symm h] at ih ⊢
      exact ih
    · by_cases hp' : p.1 = k'
      · subst hp'
        simp [mapUpd, alook, hp]
      · simp [mapUpd, alook, hp, hp'] at ih ⊢
        exact ih

theorem alook_mapUpd_self {α β : Type} [DecidableEq α]
    (l : List (α × β)) (k : α) (f : β → β) (v : β) (h : alook l k = some v) :
    alook (mapUpd l k f) k = some (f v) := by
  induction l with
  | nil => simp [alook] at h
  | cons p r ih =>
    by_cases hp : p.1 = k
    · simp [mapUpd, alook, hp] at h ⊢
      simp [h]
    · simp [mapUpd, alook, hp] at h ⊢
      exact ih h

theorem alook_mapUpd_none {α β : Type} [DecidableEq α]
    (l : List (α × β)) (k : α) (f : β → β) (h : alook l k = none) :
    alook (mapUpd l k f) k = none := by
  induction l with
  | nil => simp [mapUpd, alook]
  | cons p r ih =>
    by_cases hp : p.1 = k
    · simp [alook, hp] at h
    · simp [mapUpd, alook, hp] at h ⊢
      exact ih h

/-! ### Data model (src/core/models.py) -/

inductive PluginStatus
  | REGISTERED
  | INITIALIZING
  | ACTIVE
  | ERROR
deriving DecidableEq

inductive DependencyType
  | REQUIRED
  | OPTIONAL
deriving DecidableEq

inductive DependencyScope
  | RUNTIME
  | TEST
deriving DecidableEq

/-- models.DependencySpec (the `name` field duplicates the dict key in the
source and is carried by the key of the dependency map here). -/
structure DependencySpec where
  version : String
  type : DependencyType
  scope : DependencyScope
deriving DecidableEq

/-- The slice of models.PluginMetadata read by DependencyManager:
id, version and the dependency dict. -/
structure DPluginMetadata where
  id : String
  version : String
  dependencies : List (String × DependencySpec)
deriving DecidableEq

/-- models.ErrorResponse.  `context` is the structured dict with stringified
values (`none` models Python `None`); the source stringifies the whole record
into ValidationResult.errors, which is kept structured here. -/
structure ErrorResponse where
  code : String
  severity : String
  component : String
  message : String
  context : List (String × Option String)
  resolution : List String
deriving DecidableEq

/-- models.ValidationResult as produced by DependencyManager (errors kept as
structured ErrorResponse values rather than their `str(e)` rendering). -/
structure DValidationResult where
  is_valid : Bool
  errors : List ErrorResponse
  warnings : List String
deriving DecidableEq

/-! ### Version semantics for the external packaging collaborator

`packaging.requirements.Requirement` / `SpecifierSet` is an external library.
Its successful parses are modelled as clause lists over dotted numeric
versions; the parser itself is an oracle parameter of type
`String → Except String (List Clause)` (`.error` = parse exception). -/

def PVersion : Type := List Nat
deriving DecidableEq

inductive CmpOp
  | ge | gt | le | lt | veq | vne
deriving DecidableEq

structure Clause where
  op : CmpOp
  ver : List Nat
deriving DecidableEq

/-- All components are zero (used to compare against zero padding). -/
def allZeros : List Nat → Bool
  | [] => true
  | a :: as_ => a = 0 && allZeros as_

/-- Compare dotted versions, padding the shorter with zeros. -/
def verCmp : List Nat → List Nat → Ordering
  | [], bs => if allZeros bs then Ordering.eq else Ordering.lt
  | a :: as_, [] => if allZeros (a :: as_) then Ordering.eq else Ordering.gt
  | a :: as_, b :: bs =>
    if a < b then Ordering.lt else if b < a then Ordering.gt else verCmp as_ bs

def clauseSat (v : List Nat) (c : Clause) : Bool :=
  match c.op with
  | CmpOp.ge => verCmp v c.ver ≠ Ordering.lt
  | CmpOp.gt => verCmp v c.ver = Ordering.gt
  | CmpOp.le => verCmp v c.ver ≠ Ordering.gt
  | CmpOp.lt => verCmp v c.ver = Ordering.lt
  | CmpOp.veq => verCmp v c.ver = Ordering.eq
  | CmpOp.vne => verCmp v c.ver ≠ Ordering.eq

def specSat (v : List Nat) (cs : List Clause) : Bool :=
  cs.all (clauseSat v)

/-- str(Version), e.g. `[0,0,0]` renders as `0.0.0`. -/
def verStr (v : List Nat) : String :=
  String.intercalate "." (v.map toString)

/-! ### DependencyManager (src/core/plugins/dependencies.py) -/

/-- Oracle type for `packaging.requirements.Requirement(name + spec)`:
`.error e` models the constructor raising with message `e`. -/
def ReqParser : Type := String → Except String (List Clause)

/-- Oracle type for the version-introspection collaborator
`_get_installed_version`: `.ok none` = package absent, `.error e` = raised. -/
def VerLookup : Type := String → Except String (Option (List Nat))

/-- The source's `_get_installed_version` placeholder: always returns
`parse("0.0.0")`, never absent, never raises. -/
def get_installed_version_src : VerLookup :=
  fun _ => Except.ok (some [0, 0, 0])

def dep001Err (comp n rq : String) : ErrorResponse :=
  { code := "DEP001"
    severity := "ERROR"
    component := comp
    message := "Required dependency " ++ n ++ " is not installed"
    context := [("operation", some "dependency_validation"),
                ("dependency", some n),
                ("required_version", some rq),
                ("found_version", none)]
    resolution := ["Install " ++ n ++ " version " ++ rq,
                   "Check package repository accessibility"] }

def dep002Err (comp n rq : String) (iv : List Nat) : ErrorResponse :=
  { code := "DEP002"
    severity := "ERROR"
    component := comp
    message := "Incompatible version for " ++ n
    context := [("operation", some "dependency_validation"),
                ("dependency", some n),
                ("required_version", some rq),
                ("found_version", some (verStr iv))]
    resolution := ["Upgrade " ++ n ++ " to version " ++ rq,
                   "Or downgrade plugin to version compatible with " ++ n ++ " " ++ verStr iv] }

def dep003Err (comp n e : String) : ErrorResponse :=
  { code := "DEP003"
    severity := "ERROR"
    component := comp
    message := "Error validating dependency " ++ n
    context := [("operation", some "dependency_validation"),
                ("dependency", some n),
                ("error", some e)]
    resolution := ["Check package name and version format",
                   "Verify package manager is functioning"] }

def warnNotInstalled (n : String) : String :=
  "Optional dependency " ++ n ++ " is not installed"

def warnMismatch (n iv rq : String) : String :=
  "Optional dependency " ++ n ++ " version " ++ iv ++
    " does not match requirement " ++ rq

/-- Outcome of processing the dependency dict: accumulated errors and
warnings, plus the ghost list of package names passed to the
version-introspection collaborator (instrumentation, not source state). -/
structure DepOutcome where
  errors : List ErrorResponse
  warnings : List String
  queried : List String
deriving DecidableEq

/-- One iteration of the validation loop body of `validate_dependencies`
(the try/except around it turns any collaborator exception into DEP003). -/
def validateDep (parse : ReqParser) (getVer : VerLookup) (comp : String)
    (d : String × DependencySpec) : DepOutcome :=
  let n := d.1
  let spec := d.2
  if spec.scope = DependencyScope.TEST then ⟨[], [], []⟩
  else
    match getVer n with
    | Except.error e => ⟨[dep003Err comp n e], [], [n]⟩
    | Except.ok none =>
      if spec.type = DependencyType.REQUIRED then
        ⟨[dep001Err comp n spec.version], [], [n]⟩
      else ⟨[], [warnNotInstalled n], [n]⟩
    | Except.ok (some iv) =>
      match parse (n ++ spec.version) with
      | Except.error e => ⟨[dep003Err comp n e], [], [n]⟩
      | Except.ok cs =>
        if specSat iv cs then ⟨[], [], [n]⟩
        else if spec.type = DependencyType.REQUIRED then
          ⟨[dep002Err comp n spec.version iv], [], [n]⟩
        else ⟨[], [warnMismatch n (verStr iv) spec.version], [n]⟩

/-- The full validation loop, aggregating over the dependency dict in
iteration order (no per-dependency failure aborts the rest). -/
def computeDeps (parse : ReqParser) (getVer : VerLookup) (comp : String) :
    List (String × DependencySpec) → DepOutcome
  | [] => ⟨[], [], []⟩
  | d :: rest =>
    let h := validateDep parse getVer comp d
    let r := computeDeps parse getVer comp rest
    ⟨h.errors ++ r.errors, h.warnings ++ r.warnings, h.queried ++ r.queried⟩

/-- Validation cache `_validation_cache`: (id, version) ↦ (result, timestamp). -/
def VCache : Type := List ((String × String) × (DValidationResult × Nat))

/-- The recompute-and-store path of `validate_dependencies` (lines 54-146). -/
def freshValidate (parse : ReqParser) (getVer : VerLookup)
    (cache : VCache) (now : Nat) (pm : DPluginMetadata) :
    DValidationResult × VCache × List String :=
  let o := computeDeps parse getVer pm.id pm.dependencies
  let r : DValidationResult := ⟨o.errors.isEmpty, o.errors, o.warnings⟩
  (r, aset cache (pm.id, pm.version) (r, now), o.queried)

/-- DependencyManager.validate_dependencies.  Returns the result, the new
cache, and the ghost list of introspection queries made during the call. -/
def validate_dependencies (parse : ReqParser) (getVer : VerLookup) (ttl : Nat)
    (cache : VCache) (now : Nat) (pm : DPluginMetadata) :
    DValidationResult × VCache × List String :=
  match alook cache (pm.id, pm.version) with
  | some rt =>
    if now - rt.2 < ttl then (rt.1, cache, [])
    else freshValidate parse getVer cache now pm
  | none => freshValidate parse getVer cache now pm

/-- DependencyConfig.cache_ttl default (1 hour, in seconds). -/
def defaultCacheTtl : Nat := 3600

/-- `", ".join(f"{pid} ({ver})" ...)` in the DEP004 resolution hint. -/
def pluginsStr (reqs : List (String × String)) : String :=
  String.intercalate ", " (reqs.map fun pr => pr.1 ++ " (" ++ pr.2 ++ ")")

/-- repr of the requirements list in the DEP004 context. -/
def reqsRepr (reqs : List (String × String)) : String :=
  String.intercalate ", " (reqs.map fun pr => "(" ++ pr.1 ++ ", " ++ pr.2 ++ ")")

def dep004Err (n : String) (reqs : List (String × String)) : ErrorResponse :=
  { code := "DEP004"
    severity := "ERROR"
    component := "dependency_resolver"
    message := "Incompatible version requirements for " ++ n
    context := [("operation", some "dependency_resolution"),
                ("dependency", some n),
                ("requirements", some (reqsRepr reqs))]
    resolution := ["Resolve version conflict for " ++ n ++ " between plugins: " ++ pluginsStr reqs,
                   "Consider updating plugins to use compatible versions"] }

/-- DependencyManager._merge_version_requirements: the source placeholder
returns the version string of an arbitrary element of the non-empty set
(here: the first in insertion order), and None for the empty set. -/
def merge_version_requirements (reqs : List (String × String)) : Option String :=
  match reqs with
  | [] => none
  | r :: _ => some r.2

/-- Add `(pid, ver)` to the set `dependencies[n]`, creating the entry if
needed (Python set add refined to order-preserving duplicate-free append). -/
def addReq (m : List (String × List (String × String))) (n : String)
    (pr : String × String) : List (String × List (String × String)) :=
  match alook m n with
  | none => m ++ [(n, [pr])]
  | some l => if pr ∈ l then m else aset m n (l ++ [pr])

/-- The dependency multimap built by `resolve_dependencies`:
dependency name ↦ set of (plugin id, required-version-string). -/
def buildDeps (plugins : List DPluginMetadata) :
    List (String × List (String × String)) :=
  plugins.foldl
    (fun m p => p.dependencies.foldl (fun m2 d => addReq m2 d.1 (p.id, d.2.version)) m)
    []

/-- Python falsiness of the merged requirement (`if not merged_requirement`):
true for None and for the empty string. -/
def mergedFalsy : Option String → Bool
  | none => true
  | some s => s.isEmpty

/-- DependencyManager.resolve_dependencies.  The embedded
`merge_version_requirements` is total, so the DEP005 except-branch of the
source is unreachable and has no counterpart here. -/
def resolve_dependencies (plugins : List DPluginMetadata) : DValidationResult :=
  let deps := buildDeps plugins
  let errs := deps.foldl
    (fun acc d =>
      if d.2.length > 1 then
        if mergedFalsy (merge_version_requirements d.2) then acc ++ [dep004Err d.1 d.2]
        else acc
      else acc)
    []
  ⟨errs.isEmpty, errs, []⟩

/-! ### PluginRegistry (src/core/plugins/registry.py)

`_plugins` and `_metadata` always share the same key set (register_plugin
stores both together and nothing removes entries), so the registry state
keeps one insertion-ordered map id ↦ metadata; the plugin instances
themselves are external opaque objects whose fallible calls appear as
oracle data on each operation. -/

/-- The mutable slice of models.PluginMetadata tracked per plugin
(name/version fixed at registration, `format.status` mutated in place). -/
structure PMeta where
  name : String
  version : String
  status : PluginStatus
deriving DecidableEq

structure RegState where
  metas : List (String × PMeta)
  active : List String
deriving DecidableEq

def regInit : RegState := ⟨[], []⟩

/-- models.ValidationResult as produced by the registry (plain string
errors, as in the source f-strings). -/
structure RValidationResult where
  is_valid : Bool
  errors : List String
  warnings : List String
deriving DecidableEq

/-- models.CompatibilityResult as far as register_plugin reads it:
the flag plus the repr of the conflicts list used in the error f-string. -/
structure CompatResult where
  is_compatible : Bool
  conflictsRepr : String
deriving DecidableEq

def rvalid : RValidationResult := ⟨true, [], []⟩

def rinvalid (errs : List String) : RValidationResult := ⟨false, errs, []⟩

/-- In-place mutation `metadata.format.status = st` of the record stored
under `pid` (no-op when absent, which register_plugin's guard precludes). -/
def set_status (l : List (String × PMeta)) (pid : String) (st : PluginStatus) :
    List (String × PMeta) :=
  l.map fun p => if p.1 = pid then (p.1, ⟨p.2.name, p.2.version, st⟩) else p

/-- PluginRegistry.register_plugin.  `compat` and `depv` are the outcomes of
the unguarded awaits of `plugin.check_version_compatibility(...)` and
`plugin.validate_dependencies()`; a raised exception (`.error`) propagates
because the source has no try/except here. -/
def register_plugin (s : RegState) (pid pname pver : String)
    (compat : Except String CompatResult)
    (depv : Except String RValidationResult) :
    Except String (RegState × RValidationResult) :=
  if (alook s.metas pid).isSome then
    Except.ok (s, rinvalid ["Plugin " ++ pid ++ " is already registered"])
  else
    match compat with
    | Except.error e => Except.error e
    | Except.ok c =>
      if !c.is_compatible then
        Except.ok (s, rinvalid ["Version compatibility check failed: " ++ c.conflictsRepr])
      else
        match depv with
        | Except.error e => Except.error e
        | Except.ok d =>
          if !d.is_valid then Except.ok (s, rinvalid d.errors)
          else
            Except.ok
              ({ metas := s.metas ++ [(pid, ⟨pname, pver, PluginStatus.REGISTERED⟩)]
                 active := s.active },
               rvalid)

/-- PluginRegistry.initialize_plugin.  `outcome` is the awaited
`plugin.initialize()`: `none` = returned, `some e` = raised `e` (caught by
the except-branch).  The transient INITIALIZING assignment inside the try
block is always overwritten before the call returns and is not observable
between operations. -/
def initialize_plugin (s : RegState) (pid : String) (outcome : Option String) :
    RegState × RValidationResult :=
  match alook s.metas pid with
  | none => (s, rinvalid ["Plugin " ++ pid ++ " not found"])
  | some _ =>
    match outcome with
    | none =>
      ({ metas := set_status s.metas pid PluginStatus.ACTIVE
         active := if pid ∈ s.active then s.active else s.active ++ [pid] },
       rvalid)
    | some e =>
      ({ metas := set_status s.metas pid PluginStatus.ERROR
         active := s.active },
       rinvalid ["Failed to initialize plugin " ++ pid ++ ": " ++ e])

/-- PluginRegistry.shutdown_plugin.  `outcome` is the awaited
`plugin.shutdown()`; the status/active mutations follow it, so a raise
leaves the state untouched. -/
def shutdown_plugin (s : RegState) (pid : String) (outcome : Option String) :
    RegState × RValidationResult :=
  match alook s.metas pid with
  | none => (s, rinvalid ["Plugin " ++ pid ++ " not found"])
  | some _ =>
    match outcome with
    | none =>
      ({ metas := set_status s.metas pid PluginStatus.REGISTERED
         active := s.active.erase pid },
       rvalid)
    | some e =>
      (s, rinvalid ["Failed to shutdown plugin " ++ pid ++ ": " ++ e])

/-- One registry operation together with the outcomes of the external
collaborator calls it makes. -/
inductive RegOp
  | reg (pid pname pver : String)
        (compat : Except String CompatResult)
        (depv : Except String RValidationResult)
  | init (pid : String) (outcome : Option String)
  | shut (pid : String) (outcome : Option String)

/-- State transition of one operation.  A register_plugin call whose
collaborator raised leaves the state unchanged (all its mutations come
after the two fallible awaits). -/
def stepOp (s : RegState) : RegOp → RegState
  | RegOp.reg pid pname pver compat depv =>
    match register_plugin s pid pname pver compat depv with
    | Except.ok p => p.1
    | Except.error _ => s
  | RegOp.init pid outcome => (initialize_plugin s pid outcome).1
  | RegOp.shut pid outcome => (shutdown_plugin s pid outcome).1

/-- Registry state reached from a fresh registry by a sequence of calls. -/
def runOps (ops : List RegOp) : RegState :=
  ops.foldl stepOp regInit

/-! ### Reference semantics of the read accessors

The `plugins` / `metadata` / `active_formats` properties return
`self._plugins.copy()`, `self._metadata.copy()` and
`self._active_formats.copy()`.  To reason about what those shallow copies
share, the objects involved get explicit addresses: dict objects map ids to
value addresses, list objects hold strings (immutable), and the mutable
PluginMetadata records are represented by their mutable `format.status`
field.  Values of plugin-instance objects are bare addresses (the registry
never mutates through them). -/

structure PyWorld where
  dicts : List (Nat × List (String × Nat))
  lists : List (Nat × List String)
  metaRecs : List (Nat × PluginStatus)
deriving DecidableEq

/-- The registry's own references: `_plugins`, `_metadata`, `_active_formats`. -/
structure RegistryRefs where
  pluginsDict : Nat
  metadataDict : Nat
  activeList : Nat
deriving DecidableEq

def maxAddr {β : Type} (h : List (Nat × β)) : Nat :=
  (h.map Prod.fst).foldr max 0

/-- An address unused by any object of the world. -/
def freshAddr (w : PyWorld) : Nat :=
  max (maxAddr w.dicts) (max (maxAddr w.lists) (maxAddr w.metaRecs)) + 1

/-- `d.copy()`: allocate a fresh dict object holding the same entries
(the entries, hence the value addresses, are shared). -/
def dictCopy (w : PyWorld) (src : Nat) : Nat × PyWorld :=
  let a := freshAddr w
  (a, { w with dicts := w.dicts ++ [(a, (alook w.dicts src).getD [])] })

/-- `l.copy()` on a list of strings. -/
def listCopy (w : PyWorld) (src : Nat) : Nat × PyWorld :=
  let a := freshAddr w
  (a, { w with lists := w.lists ++ [(a, (alook w.lists src).getD [])] })

/-- Caller-side dict mutation `d[k] = v` on the dict object at `dAddr`. -/
def dictSetEntry (w : PyWorld) (dAddr : Nat) (k : String) (v : Nat) : PyWorld :=
  { w with dicts := mapUpd w.dicts dAddr (fun entries => aset entries k v) }

/-- Caller-side list mutation `l.append(x)` on the list object at `lAddr`. -/
def listAppendObj (w : PyWorld) (lAddr : Nat) (x : String) : PyWorld :=
  { w with lists := mapUpd w.lists lAddr (fun xs => xs ++ [x]) }

/-- Caller-side record mutation `m.format.status = st` on the
PluginMetadata object at `rAddr`. -/
def recSetStatus (w : PyWorld) (rAddr : Nat) (st : PluginStatus) : PyWorld :=
  { w with metaRecs := mapUpd w.metaRecs rAddr (fun _ => st) }

/-- The `metadata` property: `self._metadata.copy()`. -/
def metadataAccessor (w : PyWorld) (reg : RegistryRefs) : Nat × PyWorld :=
  dictCopy w reg.metadataDict

/-- The `plugins` property: `self._plugins.copy()`. -/
def pluginsAccessor (w : PyWorld) (reg : RegistryRefs) : Nat × PyWorld :=
  dictCopy w reg.pluginsDict

/-- The `active_formats` property: `self._active_formats.copy()`. -/
def activeAccessor (w : PyWorld) (reg : RegistryRefs) : Nat × PyWorld :=
  listCopy w reg.activeList

/-- The registry-internal observable: the status reached through the
registry's own `_metadata` dict for `pid`. -/
def internalMetaStatus (w : PyWorld) (reg : RegistryRefs) (pid : String) :
    Option PluginStatus :=
  match alook w.dicts reg.metadataDict with
  | none => none
  | some entries =>
    match alook entries pid with
    | none => none
    | some addr => alook w.metaRecs addr

/-- The registry's own `_metadata` dict entries. -/
def internalMetaEntries (w : PyWorld) (reg : RegistryRefs) :
    Option (List (String × Nat)) :=
  alook w.dicts reg.metadataDict

/-- The registry's own `_plugins` dict entries. -/
def internalPluginEntries (w : PyWorld) (reg : RegistryRefs) :
    Option (List (String × Nat)) :=
  alook w.dicts reg.pluginsDict

/-- The registry's own `_active_formats` list contents. -/
def internalActive (w : PyWorld) (reg : RegistryRefs) : Option (List String) :=
  alook w.lists reg.activeList

/-! ### Basic lemmas about the registry embedding -/

theorem set_status_eq_mapUpd (l : List (String × PMeta)) (pid : String)
    (st : PluginStatus) :
    set_status l pid st = mapUpd l pid (fun m => ⟨m.name, m.version, st⟩) := rfl

theorem alook_set_status_self (l : List (String × PMeta)) (pid : String)
    (st : PluginStatus) (m : PMeta) (h : alook l pid = some m) :
    alook (set_status l pid st) pid = some ⟨m.name, m.version, st⟩ := by
  rw [set_status_eq_mapUpd]
  exact alook_mapUpd_self l pid _ m h

theorem alook_set_status_ne (l : List (String × PMeta)) (pid pid' : String)
    (st : PluginStatus) (h : pid' ≠ pid) :
    alook (set_status l pid st) pid' = alook l pid' := by
  rw [set_status_eq_mapUpd]
  exact alook_mapUpd_ne l pid pid' _ h

/-- register_plugin either leaves the state unchanged (rejection or a
propagated collaborator exception) or, when the id was fresh and both
checks passed, appends the new plugin with status REGISTERED. -/
theorem stepOp_reg_char (s : RegState) (pid pname pver : String)
    (compat : Except String CompatResult) (depv : Except String RValidationResult) :
    stepOp s (RegOp.reg pid pname pver compat depv) = s ∨
    (alook s.metas pid = none ∧
      stepOp s (RegOp.reg pid pname pver compat depv) =
        { metas := s.metas ++ [(pid, ⟨pname, pver, PluginStatus.REGISTERED⟩)]
          active := s.active }) := by
  unfold stepOp register_plugin
  by_cases h : (alook s.metas pid).isSome
  · left; simp [h]
  · cases compat with
    | error e => left; simp [h]
    | ok c =>
      by_cases hc : c.is_compatible
      · cases depv with
        | error e => left; simp [h, hc]
        | ok d =>
          by_cases hd : d.is_valid
          · right
            refine ⟨Option.not_isSome_iff_eq_none.mp h, ?_⟩
            simp [h, hc, hd]
          · left; simp [h, hc, hd]
      · left; simp [h, hc]

theorem stepOp_reg_active (s : RegState) (pid pname pver : String)
    (compat : Except String CompatResult) (depv : Except String RValidationResult) :
    (stepOp s (RegOp.reg pid pname pver compat depv)).active = s.active := by
  rcases stepOp_reg_char s pid pname pver compat depv with h | ⟨_, h⟩ <;> rw [h]

/-! ### Claim C1: resolve_dependencies on jointly unsatisfiable requirements

The input of the repository's own test_resolve_dependencies_with_conflicts:
plugin1 requires numpy>=1.20.0 and plugin2 requires numpy<1.20.0 (both
Required, Runtime scope). -/

def conflictP1 : DPluginMetadata :=
  ⟨"plugin1", "1.0.0",
   [("numpy", ⟨">=1.20.0", DependencyType.REQUIRED, DependencyScope.RUNTIME⟩)]⟩

def conflictP2 : DPluginMetadata :=
  ⟨"plugin2", "1.0.0",
   [("numpy", ⟨"<1.20.0", DependencyType.REQUIRED, DependencyScope.RUNTIME⟩)]⟩

/-- C1: the claim demands `resolve_dependencies` return is_valid=false with an
incompatible-version error naming both plugin ids on the numpy>=1.20.0 vs
numpy<1.20.0 conflict.  The code instead returns is_valid=true with no
errors: `_merge_version_requirements` is a placeholder returning the first
requirement of the (non-empty) set, which is a non-empty string, so the
`if not merged_requirement` DEP004 branch can never fire.  This also
contradicts the repository's own test
test_resolve_dependencies_with_conflicts, which asserts is_valid=false and
an "Incompatible version" error on exactly this input. -/
theorem C1_resolve_divergence :
    resolve_dependencies [conflictP1, conflictP2] =
      { is_valid := true, errors := [], warnings := [] } ∧
    merge_version_requirements
        [("plugin1", ">=1.20.0"), ("plugin2", "<1.20.0")] = some ">=1.20.0" := by
  constructor
  · rfl
  · rfl

/-! ### Claim C6: duplicate registration is rejected without mutation -/

/-- C6: if the plugin id is already registered, register_plugin returns
is_valid=false with the already-registered error and the whole registry
state (metadata/plugin map and active_formats) is returned unchanged,
whatever the candidate's collaborators would have answered. -/
theorem C6_duplicate_register (s : RegState) (pid pname pver : String)
    (compat : Except String CompatResult) (depv : Except String RValidationResult)
    (m : PMeta) (h : alook s.metas pid = some m) :
    register_plugin s pid pname pver compat depv =
      Except.ok (s, rinvalid ["Plugin " ++ pid ++ " is already registered"]) := by
  simp [register_plugin, h]

theorem C6_duplicate_register_witness :
    register_plugin ⟨[("p", ⟨"P", "1.0.0", PluginStatus.REGISTERED⟩)], []⟩
        "p" "P2" "2.0.0" (Except.ok ⟨true, "[]"⟩) (Except.ok rvalid) =
      Except.ok (⟨[("p", ⟨"P", "1.0.0", PluginStatus.REGISTERED⟩)], []⟩,
        rinvalid ["Plugin p is already registered"]) := by
  have h := C6_duplicate_register
    ⟨[("p", ⟨"P", "1.0.0", PluginStatus.REGISTERED⟩)], []⟩ "p" "P2" "2.0.0"
    (Except.ok ⟨true, "[]"⟩) (Except.ok rvalid)
    ⟨"P", "1.0.0", PluginStatus.REGISTERED⟩ (by decide)
  exact h

/-! ### Aggregation lemmas for the validation loop -/

theorem computeDeps_errors_mem (parse : ReqParser) (getVer : VerLookup)
    (comp : String) (deps : List (String × DependencySpec))
    (d : String × DependencySpec) (hd : d ∈ deps) (e : ErrorResponse)
    (he : e ∈ (validateDep parse getVer comp d).errors) :
    e ∈ (computeDeps parse getVer comp deps).errors := by
  induction deps with
  | nil => cases hd
  | cons d0 rest ih =>
    rcases List.mem_cons.mp hd with rfl | hm
    · exact List.mem_append_left _ he
    · exact List.mem_append_right _ (ih hm)

theorem computeDeps_errors_src (parse : ReqParser) (getVer : VerLookup)
    (comp : String) (deps : List (String × DependencySpec)) (e : ErrorResponse)
    (he : e ∈ (computeDeps parse getVer comp deps).errors) :
    ∃ d ∈ deps, e ∈ (validateDep parse getVer comp d).errors := by
  induction deps with
  | nil => cases he
  | cons d0 rest ih =>
    rcases List.mem_append.mp he with h0 | hr
    · exact ⟨d0, List.mem_cons_self _ _, h0⟩
    · rcases ih hr with ⟨d, hd, hmem⟩
      exact ⟨d, List.mem_cons_of_mem _ hd, hmem⟩

theorem computeDeps_warnings_src (parse : ReqParser) (getVer : VerLookup)
    (comp : String) (deps : List (String × DependencySpec)) (w : String)
    (hw : w ∈ (computeDeps parse getVer comp deps).warnings) :
    ∃ d ∈ deps, w ∈ (validateDep parse getVer comp d).warnings := by
  induction deps with
  | nil => cases hw
  | cons d0 rest ih =>
    rcases List.mem_append.mp hw with h0 | hr
    · exact ⟨d0, List.mem_cons_self _ _, h0⟩
    · rcases ih hr with ⟨d, hd, hmem⟩
      exact ⟨d, List.mem_cons_of_mem _ hd, hmem⟩

/-! ### Claim C4: structured results vs. propagated collaborator exceptions -/

/-- C4 counterexample: register_plugin has no try/except around its
collaborator calls, so an exception raised by
plugin.check_version_compatibility propagates to the caller instead of
being folded into a ValidationResult — here on a fresh registry. -/
theorem C4_register_exception_counterexample :
    register_plugin regInit "p" "P" "1.0.0" (Except.error "boom")
        (Except.ok rvalid) =
      Except.error "boom" := rfl

/-- C4 (amended): initialize_plugin and shutdown_plugin catch the plugin
action's exception and return a structured failure result, and the
dependency manager folds a raised version-introspection lookup into a
DEP003 error inside an ordinary result; register_plugin, however,
propagates an exception raised by check_version_compatibility or by the
plugin's validate_dependencies to the caller. -/
theorem C4_structured_results_amended :
    (∀ (s : RegState) (pid pname pver e : String)
        (depv : Except String RValidationResult),
        alook s.metas pid = none →
        register_plugin s pid pname pver (Except.error e) depv =
          Except.error e) ∧
    (∀ (s : RegState) (pid pname pver e : String) (c : CompatResult),
        alook s.metas pid = none → c.is_compatible = true →
        register_plugin s pid pname pver (Except.ok c) (Except.error e) =
          Except.error e) ∧
    (∀ (s : RegState) (pid e : String) (m : PMeta),
        alook s.metas pid = some m →
        (initialize_plugin s pid (some e)).2 =
          rinvalid ["Failed to initialize plugin " ++ pid ++ ": " ++ e]) ∧
    (∀ (s : RegState) (pid e : String) (m : PMeta),
        alook s.metas pid = some m →
        (shutdown_plugin s pid (some e)).2 =
          rinvalid ["Failed to shutdown plugin " ++ pid ++ ": " ++ e]) ∧
    (∀ (parse : ReqParser) (getVer : VerLookup) (pm : DPluginMetadata)
        (n e : String) (spec : DependencySpec),
        (n, spec) ∈ pm.dependencies → spec.scope ≠ DependencyScope.TEST →
        getVer n = Except.error e →
        dep003Err pm.id n e ∈
          (computeDeps parse getVer pm.id pm.dependencies).errors) := by
  refine ⟨?_, ?_, ?_, ?_, ?_⟩
  · intro s pid pname pver e depv h
    simp [register_plugin, h]
  · intro s pid pname pver e c h hc
    simp [register_plugin, h, hc]
  · intro s pid e m h
    simp [initialize_plugin, h]
  · intro s pid e m h
    simp [shutdown_plugin, h]
  · intro parse getVer pm n e spec hmem hscope hget
    refine computeDeps_errors_mem parse getVer pm.id pm.dependencies (n, spec)
      hmem (dep003Err pm.id n e) ?_
    simp [validateDep, hscope, hget]

theorem C4_structured_results_amended_witness :
    register_plugin regInit "q" "Q" "1.0.0" (Except.ok ⟨true, "[]"⟩)
        (Except.error "pypi down") =
      Except.error "pypi down" :=
  C4_structured_results_amended.2.1 regInit "q" "Q" "1.0.0" "pypi down"
    ⟨true, "[]"⟩ (by decide) (by decide)

/-! ### Claim C7: shutdown failure leaves the state untouched -/

/-- C7: when the plugin's shutdown action raises, shutdown_plugin returns a
failure result wrapping the error text and returns the state exactly as it
was: no transition to Error, no removal from active_formats. -/
theorem C7_shutdown_failure_frame (s : RegState) (pid e : String) (m : PMeta)
    (h : alook s.metas pid = some m) :
    shutdown_plugin s pid (some e) =
      (s, rinvalid ["Failed to shutdown plugin " ++ pid ++ ": " ++ e]) := by
  simp [shutdown_plugin, h]

theorem C7_shutdown_failure_frame_witness :
    shutdown_plugin ⟨[("p", ⟨"P", "1.0.0", PluginStatus.ACTIVE⟩)], ["p"]⟩
        "p" (some "disk error") =
      (⟨[("p", ⟨"P", "1.0.0", PluginStatus.ACTIVE⟩)], ["p"]⟩,
       rinvalid ["Failed to shutdown plugin p: disk error"]) := by
  have h := C7_shutdown_failure_frame
    ⟨[("p", ⟨"P", "1.0.0", PluginStatus.ACTIVE⟩)], ["p"]⟩ "p" "disk error"
    ⟨"P", "1.0.0", PluginStatus.ACTIVE⟩ (by decide)
  exact h

/-! ### Claim C5: initialize failure is sticky and never activates -/

/-- Holds of an operation that is not a successful initialize of `pid`. -/
def noSuccessfulInit (pid : String) : RegOp → Prop
  | RegOp.init p outcome => p = pid → outcome ≠ none
  | _ => True

theorem stepOp_not_active (pid : String) (op : RegOp) (s : RegState)
    (h : pid ∉ s.active) (hop : noSuccessfulInit pid op) :
    pid ∉ (stepOp s op).active := by
  cases op with
  | reg p pname pver compat depv =>
    rw [stepOp_reg_active]; exact h
  | init p outcome =>
    show pid ∉ (initialize_plugin s p outcome).1.active
    unfold initialize_plugin
    cases hl : alook s.metas p with
    | none => exact h
    | some m0 =>
      cases outcome with
      | none =>
        by_cases hp : p = pid
        · exact absurd rfl (hop hp)
        · simp only []
          by_cases hmem : p ∈ s.active
          · simp [hmem]; exact h
          · simp [hmem, List.mem_append]
            exact ⟨h, fun hq => hp (hq ▸ rfl)⟩
      | some e => exact h
  | shut p outcome =>
    show pid ∉ (shutdown_plugin s p outcome).1.active
    unfold shutdown_plugin
    cases hl : alook s.metas p with
    | none => exact h
    | some m0 =>
      cases outcome with
      | none => exact fun hc => h (List.mem_of_mem_erase hc)
      | some e => exact h

theorem foldl_not_active (pid : String) (ops : List RegOp) :
    ∀ (s : RegState), pid ∉ s.active →
    (∀ op ∈ ops, noSuccessfulInit pid op) →
    pid ∉ (ops.foldl stepOp s).active := by
  induction ops with
  | nil => intro s h _; exact h
  | cons op rest ih =>
    intro s h hops
    exact ih (stepOp s op) (stepOp_not_active pid op s h (hops op (List.mem_cons_self _ _)))
      (fun o ho => hops o (List.mem_cons_of_mem _ ho))

/-- C5: on a registered id whose initialize action raises, initialize_plugin
sets the stored status to ERROR (not back to REGISTERED), returns the
failure result wrapping the underlying error text, and leaves
active_formats unchanged; and over any call sequence in which every
initialize of the id fails, the id never enters active_formats. -/
theorem C5_initialize_failure_sticky :
    (∀ (s : RegState) (pid e : String) (m : PMeta),
        alook s.metas pid = some m →
        initialize_plugin s pid (some e) =
          ({ metas := set_status s.metas pid PluginStatus.ERROR, active := s.active },
           rinvalid ["Failed to initialize plugin " ++ pid ++ ": " ++ e]) ∧
        alook (set_status s.metas pid PluginStatus.ERROR) pid =
          some ⟨m.name, m.version, PluginStatus.ERROR⟩) ∧
    (∀ (ops : List RegOp) (pid : String),
        (∀ op ∈ ops, noSuccessfulInit pid op) →
        pid ∉ (runOps ops).active) := by
  constructor
  · intro s pid e m h
    constructor
    · simp [initialize_plugin, h]
    · exact alook_set_status_self s.metas pid PluginStatus.ERROR m h
  · intro ops pid hops
    exact foldl_not_active pid ops regInit (by simp [regInit]) hops

theorem C5_initialize_failure_sticky_witness :
    initialize_plugin ⟨[("p", ⟨"P", "1.0.0", PluginStatus.REGISTERED⟩)], []⟩
        "p" (some "boom") =
      (⟨[("p", ⟨"P", "1.0.0", PluginStatus.ERROR⟩)], []⟩,
       rinvalid ["Failed to initialize plugin p: boom"]) ∧
    "p" ∉ (runOps
        [RegOp.reg "p" "P" "1.0.0" (Except.ok ⟨true, "[]"⟩) (Except.ok rvalid),
         RegOp.init "p" (some "boom")]).active := by
  constructor
  · exact (C5_initialize_failure_sticky.1
      ⟨[("p", ⟨"P", "1.0.0", PluginStatus.REGISTERED⟩)], []⟩ "p" "boom"
      ⟨"P", "1.0.0", PluginStatus.REGISTERED⟩ (by decide)).1
  · refine C5_initialize_failure_sticky.2 _ "p" ?_
    intro op hop
    rcases List.mem_cons.mp hop with rfl | hop2
    · trivial
    · rcases List.mem_cons.mp hop2 with rfl | hop3
      · intro _ hc; cases hc
      · cases hop3

/-! ### Claim C3: is Error terminal? -/

/-- Holds of an operation that cannot move `pid` out of ERROR: anything but
a successful initialize of `pid` or a successful shutdown of `pid`. -/
def keepsError (pid : String) : RegOp → Prop
  | RegOp.init p outcome => p = pid → outcome ≠ none
  | RegOp.shut p outcome => p = pid → outcome ≠ none
  | _ => True

theorem error_sticky_step (s : RegState) (pid : String) (m : PMeta) (op : RegOp)
    (h : alook s.metas pid = some m) (hst : m.status = PluginStatus.ERROR)
    (hop : keepsError pid op) :
    ∃ m', alook (stepOp s op).metas pid = some m' ∧
      m'.status = PluginStatus.ERROR := by
  cases op with
  | reg p pname pver compat depv =>
    rcases stepOp_reg_char s p pname pver compat depv with heq | ⟨_, heq⟩
    · refine ⟨m, ?_, hst⟩
      rw [heq]; exact h
    · refine ⟨m, ?_, hst⟩
      rw [heq]; exact alook_append_of_some _ _ _ _ h
  | init p outcome =>
    show ∃ m', alook (initialize_plugin s p outcome).1.metas pid = some m' ∧ _
    unfold initialize_plugin
    cases hl : alook s.metas p with
    | none => exact ⟨m, h, hst⟩
    | some m0 =>
      cases outcome with
      | none =>
        by_cases hp : p = pid
        · exact absurd rfl (hop hp)
        · refine ⟨m, ?_, hst⟩
          simpa [alook_set_status_ne s.metas p pid PluginStatus.ACTIVE
            (fun hq => hp hq.symm)] using h
      | some e =>
        by_cases hp : p = pid
        · subst hp
          exact ⟨⟨m0.name, m0.version, PluginStatus.ERROR⟩,
            alook_set_status_self s.metas p PluginStatus.ERROR m0 hl, rfl⟩
        · refine ⟨m, ?_, hst⟩
          simpa [alook_set_status_ne s.metas p pid PluginStatus.ERROR
            (fun hq => hp hq.symm)] using h
  | shut p outcome =>
    show ∃ m', alook (shutdown_plugin s p outcome).1.metas pid = some m' ∧ _
    unfold shutdown_plugin
    cases hl : alook s.metas p with
    | none => exact ⟨m, h, hst⟩
    | some m0 =>
      cases outcome with
      | none =>
        by_cases hp : p = pid
        · exact absurd rfl (hop hp)
        · refine ⟨m, ?_, hst⟩
          simpa [alook_set_status_ne s.metas p pid PluginStatus.REGISTERED
            (fun hq => hp hq.symm)] using h
      | some e => exact ⟨m, h, hst⟩

/-- C3 counterexample: a plugin whose initialize failed (status ERROR) is
moved to ACTIVE by a subsequent initialize_plugin whose action succeeds —
the code never guards on the current status, so ERROR is not terminal. -/
theorem C3_error_escapes_counterexample :
    (alook (runOps
        [RegOp.reg "p" "P" "1.0.0" (Except.ok ⟨true, "[]"⟩) (Except.ok rvalid),
         RegOp.init "p" (some "boom")]).metas "p" =
      some ⟨"P", "1.0.0", PluginStatus.ERROR⟩) ∧
    (alook (stepOp (runOps
        [RegOp.reg "p" "P" "1.0.0" (Except.ok ⟨true, "[]"⟩) (Except.ok rvalid),
         RegOp.init "p" (some "boom")])
        (RegOp.init "p" none)).metas "p" =
      some ⟨"P", "1.0.0", PluginStatus.ACTIVE⟩) := by
  constructor
  · rfl
  · rfl

/-- C3 (amended): ERROR persists under every operation except a successful
initialize_plugin or a successful shutdown_plugin of that id (a successful
initialize moves it to ACTIVE, a successful shutdown to REGISTERED). -/
theorem C3_error_sticky_amended (ops : List RegOp) :
    ∀ (s : RegState) (pid : String) (m : PMeta),
    alook s.metas pid = some m → m.status = PluginStatus.ERROR →
    (∀ op ∈ ops, keepsError pid op) →
    ∃ m', alook (ops.foldl stepOp s).metas pid = some m' ∧
      m'.status = PluginStatus.ERROR := by
  induction ops with
  | nil => intro s pid m h hst _; exact ⟨m, h, hst⟩
  | cons op rest ih =>
    intro s pid m h hst hops
    rcases error_sticky_step s pid m op h hst (hops op (List.mem_cons_self _ _))
      with ⟨m', h', hst'⟩
    exact ih (stepOp s op) pid m' h' hst'
      (fun o ho => hops o (List.mem_cons_of_mem _ ho))

theorem C3_error_sticky_amended_witness :
    ∃ m', alook ([RegOp.shut "p" (some "busy")].foldl stepOp
        ⟨[("p", ⟨"P", "1.0.0", PluginStatus.ERROR⟩)], []⟩).metas "p" =
      some m' ∧ m'.status = PluginStatus.ERROR := by
  refine C3_error_sticky_amended [RegOp.shut "p" (some "busy")]
    ⟨[("p", ⟨"P", "1.0.0", PluginStatus.ERROR⟩)], []⟩ "p"
    ⟨"P", "1.0.0", PluginStatus.ERROR⟩ (by decide) rfl ?_
  intro op hop
  rcases List.mem_cons.mp hop with rfl | hop2
  · intro _ hc; cases hc
  · cases hop2

/-! ### Claim C2: what active_formats actually tracks -/

/-- The provable relationship between active_formats and the stored
statuses: no duplicates, every ACTIVE id is listed, and every listed id is
ACTIVE or ERROR (a failing re-initialize leaves a stale ERROR entry). -/
def activeInv (s : RegState) : Prop :=
  s.active.Nodup ∧
  (∀ pid m, alook s.metas pid = some m → m.status = PluginStatus.ACTIVE →
    pid ∈ s.active) ∧
  (∀ pid, pid ∈ s.active → ∃ m, alook s.metas pid = some m ∧
    (m.status = PluginStatus.ACTIVE ∨ m.status = PluginStatus.ERROR))

theorem activeInv_step (s : RegState) (op : RegOp) (h : activeInv s) :
    activeInv (stepOp s op) := by
  obtain ⟨hnd, hact, hmem⟩ := h
  cases op with
  | reg p pname pver compat depv =>
    rcases stepOp_reg_char s p pname pver compat depv with heq | ⟨hfresh, heq⟩
    · rw [heq]; exact ⟨hnd, hact, hmem⟩
    · rw [heq]
      refine ⟨hnd, ?_, ?_⟩
      · intro pid m hl hst
        cases hl0 : alook s.metas pid with
        | some m0 =>
          rw [alook_append_of_some s.metas _ pid m0 hl0] at hl
          cases hl
          exact hact pid _ hl0 hst
        | none =>
          rw [alook_append_of_none s.metas _ pid hl0] at hl
          by_cases hp : p = pid
          · subst hp
            simp [alook] at hl
            rw [← hl] at hst
            cases hst
          · simp [alook, hp] at hl
      · intro pid hpmem
        rcases hmem pid hpmem with ⟨m, hlm, hs⟩
        exact ⟨m, alook_append_of_some _ _ _ _ hlm, hs⟩
  | init p outcome =>
    show activeInv (initialize_plugin s p outcome).1
    unfold initialize_plugin
    cases hl : alook s.metas p with
    | none => exact ⟨hnd, hact, hmem⟩
    | some m0 =>
      cases outcome with
      | some e =>
        refine ⟨hnd, ?_, ?_⟩
        · intro pid m hl' hst
          by_cases hp : pid = p
          · subst hp
            rw [alook_set_status_self s.metas pid _ m0 hl] at hl'
            cases hl'
            cases hst
          · rw [alook_set_status_ne s.metas p pid _ hp] at hl'
            exact hact pid m hl' hst
        · intro pid hpm
          rcases hmem pid hpm with ⟨m, hlm, hs⟩
          by_cases hp : pid = p
          · subst hp
            exact ⟨⟨m0.name, m0.version, PluginStatus.ERROR⟩,
              alook_set_status_self s.metas pid _ m0 hl, Or.inr rfl⟩
          · exact ⟨m, by rw [alook_set_status_ne s.metas p pid _ hp]; exact hlm, hs⟩
      | none =>
        by_cases hp0 : p ∈ s.active
        · simp only [hp0, if_pos]
          refine ⟨hnd, ?_, ?_⟩
          · intro pid m hl' hst
            by_cases hp : pid = p
            · subst hp; exact hp0
            · rw [alook_set_status_ne s.metas p pid _ hp] at hl'
              exact hact pid m hl' hst
          · intro pid hpm
            by_cases hp : pid = p
            · subst hp
              exact ⟨⟨m0.name, m0.version, PluginStatus.ACTIVE⟩,
                alook_set_status_self s.metas pid _ m0 hl, Or.inl rfl⟩
            · rcases hmem pid hpm with ⟨m, hlm, hs⟩
              exact ⟨m, by rw [alook_set_status_ne s.metas p pid _ hp]; exact hlm, hs⟩
        · simp only [hp0, if_neg, not_false_iff]
          refine ⟨?_, ?_, ?_⟩
          · exact List.Nodup.append hnd (List.nodup_singleton p)
              (by simpa [List.disjoint_singleton] using hp0)
          · intro pid m hl' hst
            by_cases hp : pid = p
            · subst hp
              exact List.mem_append_right _ (List.mem_singleton_self pid)
            · rw [alook_set_status_ne s.metas p pid _ hp] at hl'
              exact List.mem_append_left _ (hact pid m hl' hst)
          · intro pid hpm
            rcases List.mem_append.mp hpm with hin | hsing
            · by_cases hp : pid = p
              · subst hp
                exact ⟨⟨m0.name, m0.version, PluginStatus.ACTIVE⟩,
                  alook_set_status_self s.metas pid _ m0 hl, Or.inl rfl⟩
              · rcases hmem pid hin with ⟨m, hlm, hs⟩
                exact ⟨m, by rw [alook_set_status_ne s.metas p pid _ hp]; exact hlm, hs⟩
            · have hp : pid = p := by simpa using hsing
              subst hp
              exact ⟨⟨m0.name, m0.version, PluginStatus.ACTIVE⟩,
                alook_set_status_self s.metas pid _ m0 hl, Or.inl rfl⟩
  | shut p outcome =>
    show activeInv (shutdown_plugin s p outcome).1
    unfold shutdown_plugin
    cases hl : alook s.metas p with
    | none => exact ⟨hnd, hact, hmem⟩
    | some m0 =>
      cases outcome with
      | some e => exact ⟨hnd, hact, hmem⟩
      | none =>
        refine ⟨hnd.erase p, ?_, ?_⟩
        · intro pid m hl' hst
          by_cases hp : pid = p
          · subst hp
            rw [alook_set_status_self s.metas pid _ m0 hl] at hl'
            cases hl'
            cases hst
          · rw [alook_set_status_ne s.metas p pid _ hp] at hl'
            exact (List.mem_erase_of_ne hp).mpr (hact pid m hl' hst)
        · intro pid hpm
          obtain ⟨hp, hin⟩ := hnd.mem_erase_iff.mp hpm
          rcases hmem pid hin with ⟨m, hlm, hs⟩
          exact ⟨m, by rw [alook_set_status_ne s.metas p pid _ hp]; exact hlm, hs⟩

/-- C2 counterexample: register p, initialize it successfully, then
initialize it again with the action failing.  The final status of p is
ERROR yet p is still listed in active_formats, so active_formats is not
exactly the set of ACTIVE ids. -/
theorem C2_invariant_counterexample :
    ("p" ∈ (runOps
        [RegOp.reg "p" "P" "1.0.0" (Except.ok ⟨true, "[]"⟩) (Except.ok rvalid),
         RegOp.init "p" none,
         RegOp.init "p" (some "boom")]).active) ∧
    (alook (runOps
        [RegOp.reg "p" "P" "1.0.0" (Except.ok ⟨true, "[]"⟩) (Except.ok rvalid),
         RegOp.init "p" none,
         RegOp.init "p" (some "boom")]).metas "p" =
      some ⟨"P", "1.0.0", PluginStatus.ERROR⟩) := by
  constructor
  · decide
  · rfl

/-- C2 (amended): in every reachable state, active_formats has no
duplicates, contains every id whose status is ACTIVE, and every id it
contains has status ACTIVE or ERROR (a failed re-initialize can leave an
ERROR id behind in the list). -/
theorem activeInv_foldl (ops : List RegOp) :
    ∀ s : RegState, activeInv s → activeInv (ops.foldl stepOp s) := by
  induction ops with
  | nil => intro s hs; exact hs
  | cons op rest ih =>
    intro s hs
    exact ih (stepOp s op) (activeInv_step s op hs)

theorem C2_active_formats_invariant (ops : List RegOp) :
    activeInv (runOps ops) := by
  refine activeInv_foldl ops regInit ⟨List.nodup_nil, ?_, ?_⟩
  · intro pid m hl
    simp [regInit, alook] at hl
  · intro pid hpm
    simp [regInit] at hpm

theorem C2_active_formats_invariant_witness :
    activeInv (runOps
      [RegOp.reg "p" "P" "1.0.0" (Except.ok ⟨true, "[]"⟩) (Except.ok rvalid),
       RegOp.init "p" none,
       RegOp.init "p" (some "boom")]) :=
  C2_active_formats_invariant _

/-! ### Claim C8: the validation cache -/

/-- C8: while the cached entry for (id, version) is strictly younger than
the TTL, validate_dependencies returns the cached result unchanged, leaves
the cache untouched and makes no introspection query; once the TTL has
elapsed the result is recomputed from the dependency dict and the cache
entry is replaced by the fresh result stamped with the current time. -/
theorem C8_validation_cache (parse : ReqParser) (getVer : VerLookup) (ttl : Nat)
    (cache : VCache) (now ts : Nat) (pm : DPluginMetadata) (r : DValidationResult)
    (hc : alook cache (pm.id, pm.version) = some (r, ts)) :
    (now - ts < ttl →
      validate_dependencies parse getVer ttl cache now pm = (r, cache, [])) ∧
    (¬ now - ts < ttl →
      validate_dependencies parse getVer ttl cache now pm =
        freshValidate parse getVer cache now pm) ∧
    (freshValidate parse getVer cache now pm).1 =
      ⟨(computeDeps parse getVer pm.id pm.dependencies).errors.isEmpty,
       (computeDeps parse getVer pm.id pm.dependencies).errors,
       (computeDeps parse getVer pm.id pm.dependencies).warnings⟩ ∧
    alook (freshValidate parse getVer cache now pm).2.1 (pm.id, pm.version) =
      some ((freshValidate parse getVer cache now pm).1, now) := by
  refine ⟨?_, ?_, rfl, ?_⟩
  · intro hfresh
    simp [validate_dependencies, hc, hfresh]
  · intro hstale
    simp [validate_dependencies, hc, hstale]
  · exact alook_aset_self cache (pm.id, pm.version) _

theorem C8_validation_cache_witness :
    validate_dependencies (fun _ => Except.error "unused")
        get_installed_version_src 3600
        [(("p", "1.0.0"), (⟨true, [], []⟩, 50))] 100 ⟨"p", "1.0.0", []⟩ =
      (⟨true, [], []⟩, [(("p", "1.0.0"), (⟨true, [], []⟩, 50))], []) := by
  have h := C8_validation_cache (fun _ => Except.error "unused")
    get_installed_version_src 3600 [(("p", "1.0.0"), (⟨true, [], []⟩, 50))]
    100 50 ⟨"p", "1.0.0", []⟩ ⟨true, [], []⟩ (by decide)
  exact h.1 (by decide)

/-! ### Claim C10: consequences of the placeholder introspection service -/

theorem validateDep_src_code (parse : ReqParser) (comp : String)
    (d : String × DependencySpec) (e : ErrorResponse)
    (he : e ∈ (validateDep parse get_installed_version_src comp d).errors) :
    e.code = "DEP002" ∨ e.code = "DEP003" := by
  by_cases hs : d.2.scope = DependencyScope.TEST
  · simp [validateDep, hs] at he
  · cases hp : parse (d.1 ++ d.2.version) with
    | error er =>
      simp [validateDep, get_installed_version_src, hs, hp] at he
      subst he
      exact Or.inr rfl
    | ok cs =>
      by_cases hsat : specSat [0, 0, 0] cs
      · simp [validateDep, get_installed_version_src, hs, hp, hsat] at he
      · by_cases hreq : d.2.type = DependencyType.REQUIRED
        · simp [validateDep, get_installed_version_src, hs, hp, hsat, hreq] at he
          subst he
          exact Or.inl rfl
        · simp [validateDep, get_installed_version_src, hs, hp, hsat, hreq] at he

theorem validateDep_src_warn (parse : ReqParser) (comp : String)
    (d : String × DependencySpec) (w : String)
    (hw : w ∈ (validateDep parse get_installed_version_src comp d).warnings) :
    ∃ n iv rq, w = warnMismatch n iv rq := by
  by_cases hs : d.2.scope = DependencyScope.TEST
  · simp [validateDep, hs] at hw
  · cases hp : parse (d.1 ++ d.2.version) with
    | error er =>
      simp [validateDep, get_installed_version_src, hs, hp] at hw
    | ok cs =>
      by_cases hsat : specSat [0, 0, 0] cs
      · simp [validateDep, get_installed_version_src, hs, hp, hsat] at hw
      · by_cases hreq : d.2.type = DependencyType.REQUIRED
        · simp [validateDep, get_installed_version_src, hs, hp, hsat, hreq] at hw
        · simp [validateDep, get_installed_version_src, hs, hp, hsat, hreq] at hw
          exact ⟨d.1, verStr [0, 0, 0], d.2.version, hw⟩

theorem validateDep_src_dep002 (parse : ReqParser) (comp n : String)
    (spec : DependencySpec) (cs : List Clause)
    (hscope : spec.scope = DependencyScope.RUNTIME)
    (htype : spec.type = DependencyType.REQUIRED)
    (hp : parse (n ++ spec.version) = Except.ok cs)
    (hsat : specSat [0, 0, 0] cs = false) :
    validateDep parse get_installed_version_src comp (n, spec) =
      ⟨[dep002Err comp n spec.version [0, 0, 0]], [], [n]⟩ := by
  have hs : spec.scope ≠ DependencyScope.TEST := by
    rw [hscope]; intro hc; cases hc
  simp [validateDep, get_installed_version_src, hs, hp, hsat, htype]

/-- C10: the placeholder _get_installed_version answers version 0.0.0 for
every package, never "absent" and never an exception; therefore the
validation loop can never produce a DEP001 missing-dependency error, every
warning it produces is a version-mismatch warning (the
optional-not-installed branch is unreachable), and every Runtime Required
dependency whose parsed requirement excludes 0.0.0 contributes a DEP002
incompatible-version error naming that dependency. -/
theorem C10_introspection_placeholder :
    (∀ n, get_installed_version_src n = Except.ok (some [0, 0, 0])) ∧
    (∀ (parse : ReqParser) (pm : DPluginMetadata) (e : ErrorResponse),
        e ∈ (computeDeps parse get_installed_version_src pm.id pm.dependencies).errors →
        e.code ≠ "DEP001") ∧
    (∀ (parse : ReqParser) (pm : DPluginMetadata) (w : String),
        w ∈ (computeDeps parse get_installed_version_src pm.id pm.dependencies).warnings →
        ∃ n iv rq, w = warnMismatch n iv rq) ∧
    (∀ (parse : ReqParser) (pm : DPluginMetadata) (n : String)
        (spec : DependencySpec) (cs : List Clause),
        (n, spec) ∈ pm.dependencies →
        spec.scope = DependencyScope.RUNTIME →
        spec.type = DependencyType.REQUIRED →
        parse (n ++ spec.version) = Except.ok cs →
        specSat [0, 0, 0] cs = false →
        dep002Err pm.id n spec.version [0, 0, 0] ∈
          (computeDeps parse get_installed_version_src pm.id pm.dependencies).errors) := by
  refine ⟨fun _ => rfl, ?_, ?_, ?_⟩
  · intro parse pm e he
    rcases computeDeps_errors_src parse get_installed_version_src pm.id
      pm.dependencies e he with ⟨d, _, hmem⟩
    rcases validateDep_src_code parse pm.id d e hmem with hc | hc <;>
      rw [hc] <;> decide
  · intro parse pm w hw
    rcases computeDeps_warnings_src parse get_installed_version_src pm.id
      pm.dependencies w hw with ⟨d, _, hmem⟩
    exact validateDep_src_warn parse pm.id d w hmem
  · intro parse pm n spec cs hmem hscope htype hp hsat
    refine computeDeps_errors_mem parse get_installed_version_src pm.id
      pm.dependencies (n, spec) hmem _ ?_
    rw [validateDep_src_dep002 parse pm.id n spec cs hscope htype hp hsat]
    exact List.mem_singleton_self _

/-- Requirement parser used to witness C10: accepts exactly the
concatenated requirement string numpy>=1.20.0. -/
def c10parse : ReqParser :=
  fun s =>
    if s = "numpy>=1.20.0" then Except.ok [⟨CmpOp.ge, [1, 20, 0]⟩]
    else Except.error "invalid requirement"

theorem C10_introspection_placeholder_witness :
    dep002Err "test-plugin" "numpy" ">=1.20.0" [0, 0, 0] ∈
      (computeDeps c10parse get_installed_version_src "test-plugin"
        [("numpy",
          ⟨">=1.20.0", DependencyType.REQUIRED, DependencyScope.RUNTIME⟩)]).errors := by
  have h := C10_introspection_placeholder.2.2.2 c10parse
    ⟨"test-plugin", "1.0.0",
     [("numpy", ⟨">=1.20.0", DependencyType.REQUIRED, DependencyScope.RUNTIME⟩)]⟩
    "numpy" ⟨">=1.20.0", DependencyType.REQUIRED, DependencyScope.RUNTIME⟩
    [⟨CmpOp.ge, [1, 20, 0]⟩] (by decide) rfl rfl (by rfl) (by decide)
  exact h

/-! ### Claim C9: what the accessor copies protect -/

theorem mem_le_foldr_max (l : List Nat) (x : Nat) (h : x ∈ l) :
    x ≤ l.foldr max 0 := by
  induction l with
  | nil => cases h
  | cons y l ih =>
    rcases List.mem_cons.mp h with rfl | hm
    · exact le_max_left _ _
    · exact le_trans (ih hm) (le_max_right _ _)

theorem alook_key_mem {α β : Type} [DecidableEq α] (l : List (α × β)) (k : α)
    (v : β) (h : alook l k = some v) : k ∈ l.map Prod.fst := by
  induction l with
  | nil => simp [alook] at h
  | cons p r ih =>
    by_cases hp : p.1 = k
    · exact List.mem_cons.mpr (Or.inl hp.symm)
    · simp only [alook, hp, if_false, if_neg, not_false_iff] at h
      exact List.mem_cons_of_mem _ (ih h)

theorem alook_le_maxAddr {β : Type} (h : List (Nat × β)) (a : Nat) (v : β)
    (hl : alook h a = some v) : a ≤ maxAddr h :=
  mem_le_foldr_max _ a (alook_key_mem h a v hl)

theorem dict_addr_lt_fresh (w : PyWorld) (a : Nat)
    (v : List (String × Nat)) (h : alook w.dicts a = some v) :
    a < freshAddr w :=
  calc a ≤ maxAddr w.dicts := alook_le_maxAddr w.dicts a v h
    _ ≤ max (maxAddr w.dicts) (max (maxAddr w.lists) (maxAddr w.metaRecs)) :=
        le_max_left _ _
    _ < freshAddr w := Nat.lt_succ_self _

theorem list_addr_lt_fresh (w : PyWorld) (a : Nat)
    (v : List String) (h : alook w.lists a = some v) :
    a < freshAddr w :=
  calc a ≤ maxAddr w.lists := alook_le_maxAddr w.lists a v h
    _ ≤ max (maxAddr w.dicts) (max (maxAddr w.lists) (maxAddr w.metaRecs)) :=
        le_trans (le_max_left _ _) (le_max_right _ _)
    _ < freshAddr w := Nat.lt_succ_self _

def c9World : PyWorld :=
  ⟨[(1, [("p", 0)]), (2, [("p", 10)])], [(3, ["p"])], [(0, PluginStatus.ACTIVE)]⟩

def c9Refs : RegistryRefs := ⟨2, 1, 3⟩

/-- C9 counterexample: the metadata accessor's dict copy is shallow.  The
registry-internal status of "p" is ACTIVE; the caller obtains the copied
map, reads off the shared record address 0 under "p", mutates that record,
and the registry's internal metadata now reads ERROR — caller mutation of
a returned view changed registry-internal state. -/
theorem C9_shallow_copy_counterexample :
    internalMetaStatus c9World c9Refs "p" = some PluginStatus.ACTIVE ∧
    alook ((alook (metadataAccessor c9World c9Refs).2.dicts
        (metadataAccessor c9World c9Refs).1).getD []) "p" = some 0 ∧
    internalMetaStatus
        (recSetStatus (metadataAccessor c9World c9Refs).2 0 PluginStatus.ERROR)
        c9Refs "p" =
      some PluginStatus.ERROR :=
  ⟨rfl, rfl, rfl⟩

/-- C9 (amended): the three accessors return fresh top-level containers, so
caller mutations of the returned dict/list objects leave the registry's own
containers unchanged; but the copies are shallow — the returned metadata
dict holds the same record addresses as the internal one — so mutating a
PluginMetadata record reached through the returned map does change the
registry's internal metadata. -/
theorem C9_shallow_copy_amended :
    (∀ (w : PyWorld) (reg : RegistryRefs) (entries : List (String × Nat))
        (k : String) (v : Nat),
        alook w.dicts reg.metadataDict = some entries →
        (metadataAccessor w reg).1 ≠ reg.metadataDict ∧
        internalMetaEntries (dictSetEntry (metadataAccessor w reg).2
          (metadataAccessor w reg).1 k v) reg = some entries) ∧
    (∀ (w : PyWorld) (reg : RegistryRefs) (entries : List (String × Nat))
        (k : String) (v : Nat),
        alook w.dicts reg.pluginsDict = some entries →
        (pluginsAccessor w reg).1 ≠ reg.pluginsDict ∧
        internalPluginEntries (dictSetEntry (pluginsAccessor w reg).2
          (pluginsAccessor w reg).1 k v) reg = some entries) ∧
    (∀ (w : PyWorld) (reg : RegistryRefs) (xs : List String) (x : String),
        alook w.lists reg.activeList = some xs →
        (activeAccessor w reg).1 ≠ reg.activeList ∧
        internalActive (listAppendObj (activeAccessor w reg).2
          (activeAccessor w reg).1 x) reg = some xs) ∧
    (∀ (w : PyWorld) (reg : RegistryRefs) (entries : List (String × Nat)),
        alook w.dicts reg.metadataDict = some entries →
        alook (metadataAccessor w reg).2.dicts (metadataAccessor w reg).1 =
          some entries) ∧
    (∀ (w : PyWorld) (reg : RegistryRefs) (entries : List (String × Nat))
        (pid : String) (addr : Nat) (st0 st : PluginStatus),
        alook w.dicts reg.metadataDict = some entries →
        alook entries pid = some addr →
        alook w.metaRecs addr = some st0 →
        internalMetaStatus (recSetStatus (metadataAccessor w reg).2 addr st)
          reg pid = some st) := by
  have hfreshd : ∀ (w : PyWorld), alook w.dicts (freshAddr w) = none := by
    intro w
    cases h : alook w.dicts (freshAddr w) with
    | none => rfl
    | some v => exact absurd (dict_addr_lt_fresh w _ v h) (lt_irrefl _)
  refine ⟨?_, ?_, ?_, ?_, ?_⟩
  · intro w reg entries k v h
    have hlt := dict_addr_lt_fresh w reg.metadataDict entries h
    refine ⟨fun he => absurd (he ▸ hlt) (lt_irrefl _), ?_⟩
    simp only [internalMetaEntries, dictSetEntry, metadataAccessor, dictCopy]
    rw [alook_mapUpd_ne _ _ _ _ (Nat.ne_of_lt hlt)]
    exact alook_append_of_some _ _ _ _ h
  · intro w reg entries k v h
    have hlt := dict_addr_lt_fresh w reg.pluginsDict entries h
    refine ⟨fun he => absurd (he ▸ hlt) (lt_irrefl _), ?_⟩
    simp only [internalPluginEntries, dictSetEntry, pluginsAccessor, dictCopy]
    rw [alook_mapUpd_ne _ _ _ _ (Nat.ne_of_lt hlt)]
    exact alook_append_of_some _ _ _ _ h
  · intro w reg xs x h
    have hlt := list_addr_lt_fresh w reg.activeList xs h
    refine ⟨fun he => absurd (he ▸ hlt) (lt_irrefl _), ?_⟩
    simp only [internalActive, listAppendObj, activeAccessor, listCopy]
    rw [alook_mapUpd_ne _ _ _ _ (Nat.ne_of_lt hlt)]
    exact alook_append_of_some _ _ _ _ h
  · intro w reg entries h
    simp only [metadataAccessor, dictCopy]
    rw [alook_append_of_none _ _ _ (hfreshd w), h]
    simp [alook]
  · intro w reg entries pid addr st0 st h1 h2 h3
    simp [internalMetaStatus, recSetStatus, metadataAccessor, dictCopy,
      alook_append_of_some _ _ _ _ h1, h2,
      alook_mapUpd_self w.metaRecs addr (fun _ => st) st0 h3]

theorem C9_shallow_copy_amended_witness :
    (metadataAccessor c9World c9Refs).1 ≠ c9Refs.metadataDict ∧
    internalMetaEntries (dictSetEntry (metadataAccessor c9World c9Refs).2
      (metadataAccessor c9World c9Refs).1 "q" 7) c9Refs = some [("p", 0)] :=
  C9_shallow_copy_amended.1 c9World c9Refs [("p", 0)] "q" 7 (by decide)

end PluginCore
